import Mathlib

/-!
Verification of the authentication/authorization gate of the gotrue service
(`src/api/auth.go`): bearer-token extraction, JWT claims verification, and
the admin authorizer.  The Go functions `extractBearerToken`,
`parseJWTClaims` and `requireAdmin` are embedded shallowly below; external
collaborators that are not part of the visible source (`bearerRegexp`, the
jwt-go parser, `getUser`, `requestAud`, `isAdmin`, the error constructors)
are modelled from the specification, as noted in their doc comments.
-/

/-- The three caller-visible error kinds of the API error helpers. -/
inductive ErrorKind where
  | unauthenticated
  | badRequest
  | internalError
deriving DecidableEq, Repr

/-- Modelled from the spec: the classified HTTP error value produced by the
error helper constructors (`unauthorizedError`, `badRequestError`,
`internalServerError`), which are repository code outside the visible
source.  Only the kind and the message are relevant to the gate. -/
structure HTTPError where
  kind : ErrorKind
  message : String
deriving DecidableEq, Repr

/-- Modelled from the spec: `unauthorizedError` builds an `Unauthenticated`
error. -/
def unauthorizedError (msg : String) : HTTPError :=
  { kind := ErrorKind.unauthenticated, message := msg }

/-- Modelled from the spec: `badRequestError` builds a `BadRequest` error. -/
def badRequestError (msg : String) : HTTPError :=
  { kind := ErrorKind.badRequest, message := msg }

/-- Modelled from the spec: `internalServerError` builds an `InternalError`
error (the `WithInternalError` detail is operator-facing and not modelled). -/
def internalServerError (msg : String) : HTTPError :=
  { kind := ErrorKind.internalError, message := msg }

/-! ## Token Extractor (`extractBearerToken`) -/

/-- The characters of the scheme part `"Bearer "` of an authorization
header, scheme keyword followed by a single space. -/
def bearerSchemeChars : List Char := ['B', 'e', 'a', 'r', 'e', 'r', ' ']

/-- Modelled from the spec: `bearerRegexp` (repository code outside the
visible source) matches a header of the shape `Bearer <token>` with a
case-sensitive scheme keyword, a single space, and a non-empty token
capture containing no further space.  Returns the captured token, so that
a successful `FindStringSubmatch` has exactly the two groups the source
checks for. -/
def bearerMatch (l : List Char) : Option (List Char) :=
  if l.take 7 = bearerSchemeChars ∧ l.drop 7 ≠ [] ∧
      (l.drop 7).all (fun c => c ≠ ' ') = true then
    some (l.drop 7)
  else
    none

/-- Embedding of `extractBearerToken` (`src/api/auth.go` lines 57-69).
The header value is the result of `r.Header.Get("Authorization")`, which
yields the empty string when the header is absent; a Go string is embedded
as its list of characters. -/
def extractBearerToken (authHeader : List Char) : Except HTTPError (List Char) :=
  if authHeader = [] then
    Except.error (unauthorizedError "This endpoint requires a Bearer token")
  else
    match bearerMatch authHeader with
    | some tok => Except.ok tok
    | none => Except.error (unauthorizedError "This endpoint requires a Bearer token")

/-! ## Claims Verifier (`parseJWTClaims`) -/

/-- The decoded claims payload of a credential (`GoTrueClaims`): the
standard subject/audience identity fields and the temporal validity
fields, where `none` models an unset (zero-valued) timestamp. -/
structure GoTrueClaims where
  subject : String
  audience : String
  expiresAt : Option Int
  issuedAt : Option Int
deriving DecidableEq, Repr

/-- A presented credential after structural decoding: the algorithm its
header declares, its claims payload, and the secret under which its
signature was produced.  Modelled from the spec: HMAC is abstracted by
recording the signing secret, so that the signature verifies exactly when
that secret equals the verification secret. -/
structure JWT where
  alg : String
  claims : GoTrueClaims
  signedSecret : String
deriving DecidableEq, Repr

/-- The JWT part of the configuration: the single process-wide secret. -/
structure JWTConfig where
  secret : String
deriving DecidableEq, Repr

/-- The name of the one allow-listed signing method, HMAC-SHA256. -/
def hs256Name : String := "HS256"

/-- Modelled from the spec: temporal validation of the standard claims by
the jwt-go library at verification time `now` — an expired `expiresAt` or
a future `issuedAt` invalidates the claims; an unset field is skipped. -/
def claimsTimeValid (now : Int) (c : GoTrueClaims) : Bool :=
  (match c.expiresAt with
   | none => true
   | some e => decide (now ≤ e)) &&
  (match c.issuedAt with
   | none => true
   | some i => decide (i ≤ now))

/-- Modelled from the spec: the jwt-go `Parser.ParseWithClaims` with a
`ValidMethods` allow-list.  It rejects a credential whose header declares
an algorithm outside the allow-list, whose claims fail temporal
validation, or whose signature does not verify under the supplied secret;
otherwise it yields the decoded claims. -/
def parseWithClaims (validMethods : List String) (secret : String) (now : Int)
    (tok : JWT) : Except String GoTrueClaims :=
  if tok.alg ∈ validMethods then
    if claimsTimeValid now tok.claims = true then
      if tok.signedSecret = secret then
        Except.ok tok.claims
      else
        Except.error "signature is invalid"
    else
      Except.error "token is invalid"
  else
    Except.error "signing method is invalid"

/-- Embedding of `parseJWTClaims` (`src/api/auth.go` lines 71-84): a parser
restricted to the HS256 method verifies the credential against
`config.JWT.Secret`; any library failure is reported as an
`Unauthenticated` error, and on success the verified claims are attached
to the context (modelled by returning them). -/
def parseJWTClaims (config : JWTConfig) (now : Int) (tok : JWT) :
    Except HTTPError GoTrueClaims :=
  match parseWithClaims [hs256Name] config.secret now tok with
  | Except.error e => Except.error (unauthorizedError ("Invalid token: " ++ e))
  | Except.ok c => Except.ok c

/-! ## Admin Authorizer (`requireAdmin`) -/

/-- The administrative principal resolved by the external user lookup. -/
structure AdminUser where
  id : String
deriving DecidableEq, Repr

/-- The observable outcome of handling a present request body in
`requireAdmin`: obtaining the stream via `GetBody` may fail, JSON decoding
into `adminCheckParams` may fail, or decoding succeeds and yields the
`user.aud` field (the empty string when the field is absent, the Go zero
value). -/
inductive BodyOutcome where
  | getBodyError
  | decodeError
  | params (aud : String)
deriving DecidableEq, Repr

/-- The per-request environment of `requireAdmin`: the result of the
external `getUser` lookup (`none` models a lookup error), the audience
that `requestAud` derives — modelled from the spec: the audience embedded
in the verified claims — the body state (`none` models `r.Body == nil` or
`http.NoBody`), and the external `isAdmin` membership check. -/
structure AdminRequestEnv where
  getUserResult : Option AdminUser
  claimsAud : String
  body : Option BodyOutcome
  isAdmin : AdminUser → String → Bool

/-- The audience-resolution step of `requireAdmin` (`src/api/auth.go`
lines 34-48): the default audience, overridden by a decoded non-empty
`user.aud` field when the body is present, with `GetBody` failures mapped
to an internal error and decode failures to a bad-request error. -/
def resolveAudience (defaultAud : String) (body : Option BodyOutcome) :
    Except HTTPError String :=
  match body with
  | none => Except.ok defaultAud
  | some BodyOutcome.getBodyError =>
      Except.error (internalServerError "Error getting body")
  | some BodyOutcome.decodeError =>
      Except.error (badRequestError "Could not decode admin user params")
  | some (BodyOutcome.params a) =>
      Except.ok (if a ≠ "" then a else defaultAud)

/-- Embedding of `requireAdmin` (`src/api/auth.go` lines 27-55): resolve
the administrative user (failing closed with `Unauthenticated`), resolve
the target audience from the claims-derived default and the optional body
override, then delegate to the membership check, whose refusal is also an
`Unauthenticated` error.  On success the context is returned unchanged;
the embedding returns the resolved audience the context is cleared for. -/
def requireAdmin (env : AdminRequestEnv) : Except HTTPError String :=
  match env.getUserResult with
  | none => Except.error (unauthorizedError "Invalid admin user")
  | some adminUser =>
    match resolveAudience env.claimsAud env.body with
    | Except.error e => Except.error e
    | Except.ok aud =>
      if env.isAdmin adminUser aud then Except.ok aud
      else Except.error (unauthorizedError "User not allowed")

/-! ## Helper lemmas -/

lemma parseJWTClaims_error_of_parse_error (config : JWTConfig) (now : Int)
    (tok : JWT) (s : String)
    (h : parseWithClaims [hs256Name] config.secret now tok = Except.error s) :
    parseJWTClaims config now tok =
      Except.error (unauthorizedError ("Invalid token: " ++ s)) := by
  unfold parseJWTClaims
  rw [h]

lemma parseWithClaims_error_of_wrong_secret (vm : List String) (secret : String)
    (now : Int) (tok : JWT) (h : tok.signedSecret ≠ secret) :
    ∃ s, parseWithClaims vm secret now tok = Except.error s := by
  unfold parseWithClaims
  simp only [if_neg h]
  split
  · split
    · exact ⟨_, rfl⟩
    · exact ⟨_, rfl⟩
  · exact ⟨_, rfl⟩

lemma claimsTimeValid_eq_false_of_expired (now : Int) (c : GoTrueClaims)
    (e : Int) (hexp : c.expiresAt = some e) (hpast : e < now) :
    claimsTimeValid now c = false := by
  have hdec : decide (now ≤ e) = false := decide_eq_false (not_le.mpr hpast)
  unfold claimsTimeValid
  rw [hexp]
  simp [hdec]

lemma parseWithClaims_error_of_invalid_claims (vm : List String) (secret : String)
    (now : Int) (tok : JWT) (h : claimsTimeValid now tok.claims = false) :
    ∃ s, parseWithClaims vm secret now tok = Except.error s := by
  unfold parseWithClaims
  split
  · rw [h]
    simp
  · exact ⟨_, rfl⟩

lemma bearerMatch_eq_some_iff (l t : List Char) :
    bearerMatch l = some t ↔
      (l = bearerSchemeChars ++ t ∧ t ≠ [] ∧ t.all (fun c => c ≠ ' ') = true) := by
  have hlen : bearerSchemeChars.length = 7 := rfl
  unfold bearerMatch
  constructor
  · intro h
    split at h
    · rename_i hc
      injection h with h
      subst h
      refine ⟨?_, hc.2.1, hc.2.2⟩
      conv_lhs => rw [← List.take_append_drop 7 l]
      rw [hc.1]
    · exact absurd h (by simp)
  · rintro ⟨rfl, ht, hall⟩
    have htake : (bearerSchemeChars ++ t).take 7 = bearerSchemeChars := by
      rw [← hlen]
      exact List.take_left bearerSchemeChars t
    have hdrop : (bearerSchemeChars ++ t).drop 7 = t := by
      rw [← hlen]
      exact List.drop_left bearerSchemeChars t
    rw [if_pos ⟨htake, by rw [hdrop]; exact ht, by rw [hdrop]; exact hall⟩, hdrop]

lemma extractBearerToken_ok_iff (l t : List Char) :
    extractBearerToken l = Except.ok t ↔ bearerMatch l = some t := by
  unfold extractBearerToken
  by_cases hnil : l = []
  · subst hnil
    simp [bearerMatch, bearerSchemeChars]
  · rw [if_neg hnil]
    cases hbm : bearerMatch l with
    | some tok => simp
    | none => simp

lemma extractBearerToken_error_kind (l : List Char) (e : HTTPError)
    (h : extractBearerToken l = Except.error e) :
    e.kind = ErrorKind.unauthenticated := by
  unfold extractBearerToken at h
  split at h
  · injection h with h
    subst h
    rfl
  · split at h
    · exact absurd h (by simp)
    · injection h with h
      subst h
      rfl

/-! ## Claim theorems -/

/-- Claim C1: with a verified context whose claims carry audience
`defaultAud` and a well-formed body decoding to a non-empty override
audience `b`, `requireAdmin` passes `b` — not `defaultAud` — to the
admin-membership check; a decoded empty override field, or an absent
body, leaves the default audience in place. -/
theorem requireAdmin_override_audience (u : AdminUser) (defaultAud b : String)
    (isAdm : AdminUser → String → Bool) (hb : b ≠ "") :
    (requireAdmin { getUserResult := some u, claimsAud := defaultAud,
                      body := some (BodyOutcome.params b), isAdmin := isAdm } =
      if isAdm u b then Except.ok b
      else Except.error (unauthorizedError "User not allowed")) ∧
    (requireAdmin { getUserResult := some u, claimsAud := defaultAud,
                      body := some (BodyOutcome.params ""), isAdmin := isAdm } =
      if isAdm u defaultAud then Except.ok defaultAud
      else Except.error (unauthorizedError "User not allowed")) ∧
    (requireAdmin { getUserResult := some u, claimsAud := defaultAud,
                      body := none, isAdmin := isAdm } =
      if isAdm u defaultAud then Except.ok defaultAud
      else Except.error (unauthorizedError "User not allowed")) := by
  refine ⟨?_, ?_, ?_⟩ <;> simp [requireAdmin, resolveAudience, hb]

/-- Witness for C1 at audiences `"tenantA"`/`"tenantB"`: the override
`"tenantB"` is the audience the membership check receives. -/
theorem requireAdmin_override_audience_witness :
    (("tenantB" : String) ≠ "") ∧
    requireAdmin { getUserResult := some { id := "admin" }, claimsAud := "tenantA",
                      body := some (BodyOutcome.params "tenantB"),
                      isAdmin := fun _ a => decide (a = "tenantB") } =
      Except.ok "tenantB" := by
  refine ⟨by decide, ?_⟩
  have h := requireAdmin_override_audience { id := "admin" } "tenantA" "tenantB"
    (fun _ a => decide (a = "tenantB")) (by decide)
  exact h.1.trans (by simp)

/-- Claim C7: with a verified context and an empty request body,
`requireAdmin` resolves the target audience to the audience embedded in
the verified claims, with no override applied. -/
theorem requireAdmin_empty_body_default_audience (u : AdminUser)
    (defaultAud : String) (isAdm : AdminUser → String → Bool) :
    requireAdmin { getUserResult := some u, claimsAud := defaultAud,
                      body := none, isAdmin := isAdm } =
      if isAdm u defaultAud then Except.ok defaultAud
      else Except.error (unauthorizedError "User not allowed") := by
  simp only [requireAdmin, resolveAudience]

/-- Claim C6: when the admin user resolves and the body is present but
fails to decode, `requireAdmin` fails with a `BadRequest` error, which is
not the `Unauthenticated` kind. -/
theorem requireAdmin_malformed_body_badRequest (u : AdminUser)
    (defaultAud : String) (isAdm : AdminUser → String → Bool) :
    (requireAdmin { getUserResult := some u, claimsAud := defaultAud,
                      body := some BodyOutcome.decodeError, isAdmin := isAdm } =
      Except.error (badRequestError "Could not decode admin user params")) ∧
    (badRequestError "Could not decode admin user params").kind =
      ErrorKind.badRequest ∧
    (badRequestError "Could not decode admin user params").kind ≠
      ErrorKind.unauthenticated := by
  exact ⟨by simp only [requireAdmin, resolveAudience], rfl, by decide⟩

/-- Claim C10: when the admin user resolves and the body is present but
`GetBody` fails, `requireAdmin` fails with an `InternalError` — neither
`BadRequest` nor `Unauthenticated` — and no audience is granted. -/
theorem requireAdmin_getBody_failure_internalError (u : AdminUser)
    (defaultAud : String) (isAdm : AdminUser → String → Bool) :
    (requireAdmin { getUserResult := some u, claimsAud := defaultAud,
                      body := some BodyOutcome.getBodyError, isAdmin := isAdm } =
      Except.error (internalServerError "Error getting body")) ∧
    (internalServerError "Error getting body").kind = ErrorKind.internalError ∧
    (internalServerError "Error getting body").kind ≠ ErrorKind.badRequest ∧
    (internalServerError "Error getting body").kind ≠ ErrorKind.unauthenticated := by
  exact ⟨by simp only [requireAdmin, resolveAudience], rfl, by decide, by decide⟩

/-- Claim C9: whenever the admin-user lookup fails, `requireAdmin` fails
with an `Unauthenticated` error, whatever the body holds — lookup happens
before body decoding, so even a malformed or unreadable body yields the
lookup's `Unauthenticated` error. -/
theorem requireAdmin_user_lookup_failure_unauthenticated
    (env : AdminRequestEnv) (hu : env.getUserResult = none) :
    requireAdmin env = Except.error (unauthorizedError "Invalid admin user") ∧
    (unauthorizedError "Invalid admin user").kind = ErrorKind.unauthenticated := by
  constructor
  · unfold requireAdmin
    rw [hu]
  · rfl

/-- Witness for C9: a failed lookup combined with a malformed body still
reports the lookup's `Unauthenticated` error. -/
theorem requireAdmin_user_lookup_failure_unauthenticated_witness :
    requireAdmin { getUserResult := none, claimsAud := "tenantA",
                      body := some BodyOutcome.decodeError, isAdmin := fun _ _ => true } =
      Except.error (unauthorizedError "Invalid admin user") :=
  (requireAdmin_user_lookup_failure_unauthenticated _ rfl).1

/-- Claim C8: when the credential has been verified, the admin user
resolves and the audience resolves, a membership check that refuses the
resolved audience makes `requireAdmin` fail with an `Unauthenticated`
error — the same kind as authentication failures, there being no distinct
forbidden kind. -/
theorem requireAdmin_membership_refusal_unauthenticated
    (env : AdminRequestEnv) (u : AdminUser) (aud : String)
    (hu : env.getUserResult = some u)
    (haud : resolveAudience env.claimsAud env.body = Except.ok aud)
    (hadm : env.isAdmin u aud = false) :
    requireAdmin env = Except.error (unauthorizedError "User not allowed") ∧
    (unauthorizedError "User not allowed").kind = ErrorKind.unauthenticated := by
  constructor
  · unfold requireAdmin
    rw [hu, haud]
    simp [hadm]
  · rfl

/-- Witness for C8: a membership check that always refuses yields the
`Unauthenticated` refusal on a concrete request. -/
theorem requireAdmin_membership_refusal_unauthenticated_witness :
    requireAdmin { getUserResult := some { id := "admin" }, claimsAud := "tenantA",
                      body := none, isAdmin := fun _ _ => false } =
      Except.error (unauthorizedError "User not allowed") :=
  (requireAdmin_membership_refusal_unauthenticated
    { getUserResult := some { id := "admin" }, claimsAud := "tenantA",
      body := none, isAdmin := fun _ _ => false }
    { id := "admin" } "tenantA" rfl rfl rfl).1

/-- Claim C2: a credential whose header declares a signing algorithm other
than HS256 makes `parseJWTClaims` fail with an `Unauthenticated` error,
regardless of its claims or of whether its signature would verify. -/
theorem parseJWTClaims_wrong_alg_unauthenticated (config : JWTConfig)
    (now : Int) (tok : JWT) (halg : tok.alg ≠ hs256Name) :
    ∃ e, parseJWTClaims config now tok = Except.error e ∧
      e.kind = ErrorKind.unauthenticated := by
  have hstep : parseWithClaims [hs256Name] config.secret now tok =
      Except.error "signing method is invalid" := by
    unfold parseWithClaims
    rw [if_neg (by simp [halg])]
  exact ⟨_, parseJWTClaims_error_of_parse_error config now tok _ hstep, rfl⟩

/-- Witness for C2: an unexpired credential carrying the right secret but
declaring algorithm `"none"` is rejected as `Unauthenticated`. -/
theorem parseJWTClaims_wrong_alg_unauthenticated_witness :
    (JWT.alg { alg := "none",
               claims := { subject := "sub", audience := "aud",
                           expiresAt := some 200, issuedAt := some 0 },
               signedSecret := "secret" } ≠ hs256Name) ∧
    ∃ e, parseJWTClaims { secret := "secret" } 100
        { alg := "none",
          claims := { subject := "sub", audience := "aud",
                      expiresAt := some 200, issuedAt := some 0 },
          signedSecret := "secret" } = Except.error e ∧
      e.kind = ErrorKind.unauthenticated :=
  ⟨by decide, parseJWTClaims_wrong_alg_unauthenticated { secret := "secret" } 100
      { alg := "none",
        claims := { subject := "sub", audience := "aud",
                    expiresAt := some 200, issuedAt := some 0 },
        signedSecret := "secret" } (by decide)⟩

/-- Claim C3: a credential signed with a secret different from the
configured `config.JWT.Secret` makes `parseJWTClaims` fail with an
`Unauthenticated` error. -/
theorem parseJWTClaims_wrong_secret_unauthenticated (config : JWTConfig)
    (now : Int) (tok : JWT) (hsec : tok.signedSecret ≠ config.secret) :
    ∃ e, parseJWTClaims config now tok = Except.error e ∧
      e.kind = ErrorKind.unauthenticated := by
  obtain ⟨s, hs⟩ :=
    parseWithClaims_error_of_wrong_secret [hs256Name] config.secret now tok hsec
  exact ⟨_, parseJWTClaims_error_of_parse_error config now tok s hs, rfl⟩

/-- Witness for C3: an unexpired HS256 credential signed under `"other"`
against configured secret `"secret"` is rejected as `Unauthenticated`. -/
theorem parseJWTClaims_wrong_secret_unauthenticated_witness :
    (JWT.signedSecret { alg := "HS256",
                        claims := { subject := "sub", audience := "aud",
                                    expiresAt := some 200, issuedAt := some 0 },
                        signedSecret := "other" } ≠
      JWTConfig.secret { secret := "secret" }) ∧
    ∃ e, parseJWTClaims { secret := "secret" } 100
        { alg := "HS256",
          claims := { subject := "sub", audience := "aud",
                      expiresAt := some 200, issuedAt := some 0 },
          signedSecret := "other" } = Except.error e ∧
      e.kind = ErrorKind.unauthenticated :=
  ⟨by decide, parseJWTClaims_wrong_secret_unauthenticated { secret := "secret" } 100
      { alg := "HS256",
        claims := { subject := "sub", audience := "aud",
                    expiresAt := some 200, issuedAt := some 0 },
        signedSecret := "other" } (by decide)⟩

/-- Claim C4: a credential whose `expiresAt` lies in the past relative to
the verification time makes `parseJWTClaims` fail with an
`Unauthenticated` error, even when its signature is valid under the
configured secret — the hypotheses place no constraint on the algorithm
or the signing secret, so in particular a correctly signed HS256
credential is rejected once expired. -/
theorem parseJWTClaims_expired_unauthenticated (config : JWTConfig)
    (now : Int) (tok : JWT) (e : Int)
    (hexp : tok.claims.expiresAt = some e) (hpast : e < now) :
    ∃ err, parseJWTClaims config now tok = Except.error err ∧
      err.kind = ErrorKind.unauthenticated := by
  obtain ⟨s, hs⟩ := parseWithClaims_error_of_invalid_claims [hs256Name]
    config.secret now tok (claimsTimeValid_eq_false_of_expired now tok.claims e hexp hpast)
  exact ⟨_, parseJWTClaims_error_of_parse_error config now tok s hs, rfl⟩

/-- Witness for C4: an HS256 credential signed under the configured secret
but expired at time 50, verified at time 100, is rejected as
`Unauthenticated`. -/
theorem parseJWTClaims_expired_unauthenticated_witness :
    (GoTrueClaims.expiresAt { subject := "sub", audience := "aud",
                              expiresAt := some 50, issuedAt := some 0 } = some 50) ∧
    ((50 : Int) < 100) ∧
    ∃ err, parseJWTClaims { secret := "secret" } 100
        { alg := "HS256",
          claims := { subject := "sub", audience := "aud",
                      expiresAt := some 50, issuedAt := some 0 },
          signedSecret := "secret" } = Except.error err ∧
      err.kind = ErrorKind.unauthenticated :=
  ⟨rfl, by decide, parseJWTClaims_expired_unauthenticated { secret := "secret" } 100
      { alg := "HS256",
        claims := { subject := "sub", audience := "aud",
                    expiresAt := some 50, issuedAt := some 0 },
        signedSecret := "secret" } 50 rfl (by decide)⟩

/-- Claim C5: `extractBearerToken` succeeds exactly on headers of the
shape `Bearer <token>` — case-sensitive scheme keyword, single space,
non-empty token — returning the captured token; on every other header,
including the empty value a request without an `Authorization` header
produces, it fails, and every failure is an `Unauthenticated` error. -/
theorem extractBearerToken_shape (l : List Char) :
    (∀ t, extractBearerToken l = Except.ok t ↔
        (l = bearerSchemeChars ++ t ∧ t ≠ [] ∧
          t.all (fun c => c ≠ ' ') = true)) ∧
    (∀ e, extractBearerToken l = Except.error e →
        e.kind = ErrorKind.unauthenticated) ∧
    ((∀ t, ¬ (l = bearerSchemeChars ++ t ∧ t ≠ [] ∧
        t.all (fun c => c ≠ ' ') = true)) →
      ∃ e, extractBearerToken l = Except.error e ∧
        e.kind = ErrorKind.unauthenticated) := by
  refine ⟨fun t => ?_, fun e => extractBearerToken_error_kind l e, fun hno => ?_⟩
  · rw [extractBearerToken_ok_iff, bearerMatch_eq_some_iff]
  · cases hx : extractBearerToken l with
    | ok t =>
      exact absurd ((extractBearerToken_ok_iff l t).mp hx)
        (fun hm => hno t ((bearerMatch_eq_some_iff l t).mp hm))
    | error e =>
      exact ⟨e, rfl, extractBearerToken_error_kind l e hx⟩

/-- Witness for C5: the header `"Bearer abc"` yields the token `"abc"`,
the empty header (absent `Authorization`) fails with `Unauthenticated`,
and the spaceless header `"Bearerabc"` fails with `Unauthenticated`. -/
theorem extractBearerToken_shape_witness :
    (extractBearerToken "Bearer abc".data = Except.ok "abc".data) ∧
    (∃ e, extractBearerToken "".data = Except.error e ∧
      e.kind = ErrorKind.unauthenticated) ∧
    (∃ e, extractBearerToken "Bearerabc".data = Except.error e ∧
      e.kind = ErrorKind.unauthenticated) := by
  refine ⟨?_, ?_, ?_⟩
  · exact ((extractBearerToken_shape "Bearer abc".data).1 "abc".data).mpr
      ⟨by decide, by decide, by decide⟩
  · have hx : extractBearerToken "".data =
        Except.error (unauthorizedError "This endpoint requires a Bearer token") := rfl
    exact ⟨_, hx, (extractBearerToken_shape "".data).2.1 _ hx⟩
  · have hx : extractBearerToken "Bearerabc".data =
        Except.error (unauthorizedError "This endpoint requires a Bearer token") := rfl
    exact ⟨_, hx, (extractBearerToken_shape "Bearerabc".data).2.1 _ hx⟩
